import Mathlib

/-!
Verification of the HTTP bootstrap in `src/server.js` (vinit1504/salesbackend).

The file is a single Express bootstrap: it configures a rate limiter, helmet
security headers, a CORS gate with a fixed allow-list, JSON / cookie /
URL-encoded body parsing, a request logger, two mounted route groups, a
`GET /health` handler, a catch-all 404 handler, and graceful shutdown on
SIGTERM.

The embedding below models each middleware stage as a function from a request
context to a stage result (continue, short-circuit with a response, or raise a
pipeline error), and the whole pipeline as the ordered chain of those stages,
mirroring the `app.use` registration order in the source.  Configuration
values (window size, request cap, the origin allow-list, the 10kb body limit,
the mounted prefixes, the handler bodies) are embedded from the source.  The
internal behavior of the third-party middleware libraries (express-rate-limit,
cors, helmet, express.json, and the `server.close` of Node) is not part of this
repository; those behaviors are modelled from the words of the specification, as
noted on each definition.
-/

namespace SalesBackend

/-- Minimal JSON value model, enough for the response bodies built in
`server.js` (`/health` body and the 404 body). -/
inductive Json where
  | str (s : String)
  | num (n : Nat)
  | obj (fields : List (String × Json))
deriving Repr

/-- A decimal digit character (used by the ISO-8601 timestamp model). -/
def digitChar (n : Nat) : Char := Char.ofNat (48 + n)

/-- Two-digit zero-padded decimal rendering, as a character list. -/
def pad2 (n : Nat) : List Char := [digitChar (n / 10 % 10), digitChar (n % 10)]

/-- Three-digit zero-padded decimal rendering, as a character list. -/
def pad3 (n : Nat) : List Char :=
  [digitChar (n / 100 % 10), digitChar (n / 10 % 10), digitChar (n % 10)]

/-- Four-digit zero-padded decimal rendering, as a character list. -/
def pad4 (n : Nat) : List Char :=
  [digitChar (n / 1000 % 10), digitChar (n / 100 % 10),
   digitChar (n / 10 % 10), digitChar (n % 10)]

/-- Proleptic-Gregorian civil date from a day count since 1970-01-01
(the `civil_from_days` algorithm of Howard Hinnant, restricted to nonnegative
day counts).  Returns `(year, month, day)`. -/
def civilFromDays (days : Nat) : Nat × Nat × Nat :=
  let z := days + 719468
  let era := z / 146097
  let doe := z % 146097
  let yoe := (doe - doe / 1460 + doe / 36524 - doe / 146096) / 365
  let y := yoe + era * 400
  let doy := doe - (365 * yoe + yoe / 4 - yoe / 100)
  let mp := (5 * doy + 2) / 153
  let d := doy - (153 * mp + 2) / 5 + 1
  let m := if mp < 10 then mp + 3 else mp - 9
  (if m ≤ 2 then y + 1 else y, m, d)

/-- Modelled from the spec: `new Date().toISOString()` of the JavaScript
runtime is not part of this repository.  Model of the ISO-8601 / RFC 3339
rendering `YYYY-MM-DDTHH:mm:ss.sssZ` of a timestamp given as milliseconds
since the Unix epoch (the fixed 24-character format used for years up to
9999). -/
def toISOString (t : Nat) : String :=
  let days := t / 86400000
  let ms := t % 86400000
  let ymd := civilFromDays days
  let hh := ms / 3600000
  let mi := ms % 3600000 / 60000
  let ss := ms % 60000 / 1000
  let mmm := ms % 1000
  String.mk (pad4 ymd.1 ++ '-' :: pad2 ymd.2.1 ++ '-' :: pad2 ymd.2.2 ++
    'T' :: pad2 hh ++ ':' :: pad2 mi ++ ':' :: pad2 ss ++ '.' :: pad3 mmm ++ ['Z'])

/-- Is this character a decimal digit? -/
def isDigitCh (c : Char) : Bool := 48 ≤ c.toNat && c.toNat ≤ 57

/-- Checker for the 24-character ISO-8601 timestamp shape
`YYYY-MM-DDTHH:mm:ss.sssZ` on a character list. -/
def isISO8601Chars : List Char → Bool
  | [y1, y2, y3, y4, s1, n1, n2, s2, d1, d2, tc, h1, h2, c1, i1, i2, c2,
     e1, e2, dot, f1, f2, f3, zc] =>
    isDigitCh y1 && isDigitCh y2 && isDigitCh y3 && isDigitCh y4 &&
    s1 == '-' && isDigitCh n1 && isDigitCh n2 && s2 == '-' &&
    isDigitCh d1 && isDigitCh d2 && tc == 'T' &&
    isDigitCh h1 && isDigitCh h2 && c1 == ':' &&
    isDigitCh i1 && isDigitCh i2 && c2 == ':' &&
    isDigitCh e1 && isDigitCh e2 && dot == '.' &&
    isDigitCh f1 && isDigitCh f2 && isDigitCh f3 && zc == 'Z'
  | _ => false

/-- A string parses as an ISO-8601 timestamp (in the fixed
`YYYY-MM-DDTHH:mm:ss.sssZ` form emitted by `toISOString`). -/
def isISO8601 (s : String) : Bool := isISO8601Chars s.data

/-- An incoming HTTP request, with the attributes the pipeline inspects:
method, path, the `Origin` header, content type, body length in bytes,
whether the body is syntactically valid for its content type, the `Cookie`
header, the client IP (the identity express-rate-limit derives), and the
arrival time in milliseconds since the epoch. -/
structure Request where
  method : String
  path : String
  origin : Option String
  contentTypeJson : Bool
  contentTypeUrlencoded : Bool
  bodyLength : Nat
  bodyValidJson : Bool
  cookieHeader : Option String
  ip : String
  time : Nat
deriving Repr

/-- An HTTP response: status code, headers, optional JSON body. -/
structure Response where
  status : Nat
  headers : List (String × String)
  body : Option Json
deriving Repr

/-- Rate-limiter store: for each client identity (IP), the timestamps (ms) of
its recorded hits, most recent first.  Owned by the limiter middleware. -/
abbrev Store := List (String × List Nat)

/-- The recorded hit timestamps of one client. -/
def Store.hits (s : Store) (ip : String) : List Nat :=
  match s.find? (fun e => e.1 == ip) with
  | some e => e.2
  | none => []

/-- Record one hit for a client at time `t`. -/
def Store.record (s : Store) (ip : String) (t : Nat) : Store :=
  match s with
  | [] => [(ip, [t])]
  | e :: rest => if e.1 == ip then (e.1, t :: e.2) :: rest else e :: Store.record rest ip t

/-- Per-request pipeline context: the request, the response headers
accumulated so far, the limiter store, the log lines emitted so far, and
flags recording that the body / cookies were parsed. -/
structure Ctx where
  req : Request
  resHeaders : List (String × String)
  store : Store
  log : List String
  bodyParsed : Bool
  cookiesParsed : Bool
deriving Repr

/-- Result of running one middleware stage: pass control to the next stage,
end the request with a response, or raise a pipeline error (`next(err)`). -/
inductive StageOut where
  | next (c : Ctx)
  | halt (c : Ctx) (resp : Response)
  | err (c : Ctx) (msg : String)
deriving Repr

/-- A named middleware stage. -/
structure Middleware where
  name : String
  run : Ctx → StageOut

/-! ### Rate limiter (`limiter`, src/server.js lines 23-28, 60)

Configured with `windowMs: 15 * 60 * 1000`, `max: 100`,
`standardHeaders: true`, `legacyHeaders: false`. -/

/-- The limiter window: 15 minutes in milliseconds (source line 24). -/
def windowMs : Nat := 15 * 60 * 1000

/-- The limiter cap: 100 requests per IP per window (source line 25). -/
def maxRequests : Nat := 100

/-- Is a hit recorded at `ts` inside the rolling window ending at `t`? -/
def inWindow (t ts : Nat) : Bool := t < ts + windowMs

/-- Number of recorded hits of this client inside the window of `req.time`. -/
def prevHits (store : Store) (req : Request) : Nat :=
  ((Store.hits store req.ip).filter (fun ts => inWindow req.time ts)).length

/-- The standard `RateLimit-*` headers the limiter attaches
(`standardHeaders: true`); no legacy `X-RateLimit-*` header is ever built
(`legacyHeaders: false`). -/
def rlHeadersFor (store : Store) (req : Request) : List (String × String) :=
  [("RateLimit-Limit", toString maxRequests),
   ("RateLimit-Remaining", toString (maxRequests - (prevHits store req + 1))),
   ("RateLimit-Reset", toString (windowMs / 1000))]

/-- Modelled from the spec: the express-rate-limit implementation is not part
of this repository; the spec describes a sliding 15-minute window of at most
100 requests per client identity, standard `RateLimit-*` headers on
responses, and legacy `X-RateLimit-*` headers disabled.  Every request is
counted; a request whose hit count within the window exceeds the cap is
rejected with status 429. -/
def limiterMw : Middleware where
  name := "limiter"
  run c :=
    let totalHits := prevHits c.store c.req + 1
    let store := Store.record c.store c.req.ip c.req.time
    if totalHits > maxRequests then
      .halt { c with store := store }
        { status := 429, headers := c.resHeaders ++ rlHeadersFor c.store c.req,
          body := some (.str "Too many requests, please try again later.") }
    else
      .next { c with store := store,
                     resHeaders := c.resHeaders ++ rlHeadersFor c.store c.req }

/-! ### Security headers (`helmet()`, src/server.js line 61) -/

/-- Modelled from the spec: helmet is not part of this repository; the spec
says it applies "a standard hardened set of HTTP response headers (no custom
policy beyond defaults)". -/
def helmetHeaders : List (String × String) :=
  [("Content-Security-Policy", "default-src self"),
   ("X-Content-Type-Options", "nosniff"),
   ("X-Frame-Options", "SAMEORIGIN"),
   ("Strict-Transport-Security", "max-age=15552000; includeSubDomains"),
   ("X-DNS-Prefetch-Control", "off")]

/-- The helmet stage appends the hardened header set and continues. -/
def helmetMw : Middleware where
  name := "helmet"
  run c := .next { c with resHeaders := c.resHeaders ++ helmetHeaders }

/-! ### CORS gate (`corsOptions` + `cors(corsOptions)` + `app.options`,
src/server.js lines 31-57, 62-63) -/

/-- The fixed origin allow-list (source lines 33-37). -/
def allowedOrigins : List String :=
  ["http://localhost:5173", "https://salesfrontend-eight.vercel.app"]

/-- The `corsOptions.origin` decision (source lines 40-44): allow when the
`Origin` header is absent (`!origin`) or is on the allow-list
(`allowedOrigins.indexOf(origin) !== -1`); otherwise
`callback` receives the error `Not allowed by CORS`. -/
def corsOriginAllowed : Option String → Bool
  | none => true
  | some o => allowedOrigins.contains o

/-- The methods allowed by `corsOptions.methods` (source line 46). -/
def corsMethods : List String := ["GET", "POST", "PUT", "DELETE", "OPTIONS", "PATCH"]

/-- The request headers allowed by `corsOptions.allowedHeaders`
(source lines 47-54). -/
def corsAllowedHeaders : List String :=
  ["Content-Type", "Authorization", "X-Requested-With", "Accept", "Origin",
   "Cache-Control"]

/-- `corsOptions.optionsSuccessStatus` (source line 56). -/
def optionsSuccessStatus : Nat := 200

/-- Modelled from the spec: the header emission of the cors library is not
part of this repository; the spec says allowed requests get CORS-allow
headers, with credentials permitted (`credentials: true`, source line 55). -/
def corsAllowHeadersFor (origin : Option String) : List (String × String) :=
  (match origin with
   | some o => [("Access-Control-Allow-Origin", o)]
   | none => []) ++
  [("Access-Control-Allow-Credentials", "true"), ("Vary", "Origin")]

/-- Extra headers on a preflight response, from `corsOptions` (methods and
allowed request headers, source lines 46-54). -/
def corsPreflightHeaders : List (String × String) :=
  [("Access-Control-Allow-Methods", String.intercalate "," corsMethods),
   ("Access-Control-Allow-Headers", String.intercalate "," corsAllowedHeaders)]

/-- The CORS gate (source lines 62-63; `app.use(cors(corsOptions))` together
with the wildcard `app.options` registration, which the `use` registration
subsumes because it already terminates every preflight).  The allow / reject
decision is embedded from `corsOptions.origin`; what the cors library does
with that decision is modelled from the spec: a disallowed origin raises the
pipeline error `Not allowed by CORS`; an allowed `OPTIONS` request is
short-circuited with `optionsSuccessStatus`; any other allowed request gets
the CORS-allow headers and continues. -/
def corsMw : Middleware where
  name := "cors"
  run c :=
    if corsOriginAllowed c.req.origin then
      let hs := corsAllowHeadersFor c.req.origin
      if c.req.method == "OPTIONS" then
        .halt c { status := optionsSuccessStatus,
                  headers := c.resHeaders ++ hs ++ corsPreflightHeaders,
                  body := none }
      else
        .next { c with resHeaders := c.resHeaders ++ hs }
    else
      .err c "Not allowed by CORS"

/-! ### Body parsing (src/server.js lines 66-73) -/

/-- The `10kb` payload limit of `express.json` and `express.urlencoded`
(source lines 67 and 72): 10 · 1024 bytes. -/
def bodyLimitBytes : Nat := 10 * 1024

/-- Modelled from the spec: the express.json implementation is not part of
this repository; the spec says it parses `application/json` bodies and
rejects (fails) any body exceeding 10 KB; a syntactically invalid body also
fails.  Configured with a `10kb` limit (source lines 66-68). -/
def jsonBodyMw : Middleware where
  name := "json"
  run c :=
    if c.req.contentTypeJson then
      if c.req.bodyLength > bodyLimitBytes then
        .err c "request entity too large"
      else if !c.req.bodyValidJson then
        .err c "invalid JSON body"
      else
        .next { c with bodyParsed := true }
    else
      .next c

/-- Modelled from the spec: cookie-parser is not part of this repository; the
spec says it parses the `Cookie` header into an accessible mapping
(source line 69). -/
def cookieMw : Middleware where
  name := "cookie"
  run c := .next { c with cookiesParsed := true }

/-- Modelled from the spec: express.urlencoded is not part of this
repository; the spec says it parses form-encoded bodies (extended syntax)
with the same 10 KB cap (source lines 70-73). -/
def urlencodedMw : Middleware where
  name := "urlencoded"
  run c :=
    if c.req.contentTypeUrlencoded && c.req.bodyLength > bodyLimitBytes then
      .err c "request entity too large"
    else
      .next c

/-- The logging middleware (source lines 76-79): emits
`` `${req.method} ${req.path} - ${new Date().toISOString()}` `` and calls
`next()`. -/
def loggerMw : Middleware where
  name := "logger"
  run c :=
    .next { c with
      log := c.log ++ [c.req.method ++ " " ++ c.req.path ++ " - " ++ toISOString c.req.time] }

/-- The middleware chain, in the exact `app.use` registration order of
src/server.js lines 60-79. -/
def pipeline : List Middleware :=
  [limiterMw, helmetMw, corsMw, jsonBodyMw, cookieMw, urlencodedMw, loggerMw]

/-- The outcome of a request: a response produced in this file, a delegation
to an external route group, or an unhandled pipeline error. -/
inductive Outcome where
  | response (r : Response)
  | delegated (group : String)
  | pipelineError (msg : String)
deriving Repr

/-- Does a request path fall under an `app.use(prefix, ...)` mount?  The path
is the prefix itself or extends it at a `/` boundary. -/
def mountMatches (path pre : String) : Bool :=
  path == pre || List.isPrefixOf (pre.data ++ ['/']) path.data

/-- The routing layer (src/server.js lines 82-100), in registration order:
the `/api/v1/email` mount, the `/api/v1/auth` mount, the `GET /health`
handler, then the catch-all 404 handler.  Dispatch semantics (prefix mounts,
method match) are modelled from the HTTP-surface table of the spec; the
registrations and the two response bodies are embedded from the source. -/
def route (c : Ctx) : Outcome :=
  if mountMatches c.req.path "/api/v1/email" then .delegated "sequence"
  else if mountMatches c.req.path "/api/v1/auth" then .delegated "auth"
  else if c.req.method == "GET" && c.req.path == "/health" then
    .response
      { status := 200, headers := c.resHeaders,
        body := some (.obj [("status", .str "healthy"),
                            ("timestamp", .str (toISOString c.req.time))]) }
  else
    .response
      { status := 404, headers := c.resHeaders,
        body := some (.obj [("error", .str "Not Found"),
                            ("path", .str c.req.path)]) }

/-- Run a middleware chain, recording the names of the stages that executed. -/
def runChain : List Middleware → Ctx → List String × StageOut
  | [], c => ([], .next c)
  | m :: ms, c =>
    match m.run c with
    | .next c1 =>
      let rest := runChain ms c1
      (m.name :: rest.1, rest.2)
    | .halt c1 r => ([m.name], .halt c1 r)
    | .err c1 e => ([m.name], .err c1 e)

/-- The result of processing one request: the executed-stage trace, the
outcome, the limiter store afterwards, and the log lines emitted. -/
structure RunResult where
  trace : List String
  outcome : Outcome
  store : Store
  log : List String
deriving Repr

/-- Process one request through the whole server: the middleware chain in
registration order, then (if no stage ended the request) the routing layer. -/
def processRequest (store : Store) (req : Request) : RunResult :=
  let c0 : Ctx := { req := req, resHeaders := [], store := store, log := [],
                    bodyParsed := false, cookiesParsed := false }
  match runChain pipeline c0 with
  | (tr, .next c) =>
    { trace := tr ++ ["routing"], outcome := route c, store := c.store, log := c.log }
  | (tr, .halt c r) => { trace := tr, outcome := .response r, store := c.store, log := c.log }
  | (tr, .err c e) => { trace := tr, outcome := .pipelineError e, store := c.store, log := c.log }

/-! ### Graceful shutdown (src/server.js lines 103-114)

`app.listen` starts the listener; the SIGTERM handler logs
"SIGTERM received. Shutting down gracefully" and calls `server.close`, whose
callback logs "Process terminated".  `server.close` itself is Node library
behavior; its contract (stop accepting new connections, let in-flight
requests finish, then invoke the callback) is modelled from the spec. -/

/-- Listener lifecycle phase. -/
inductive Phase where
  | listening
  | shuttingDown
  | terminated
deriving DecidableEq, Repr

/-- Listener state: lifecycle phase, number of in-flight connections, number
of connections accepted so far, and the log lines emitted. -/
structure ServerSt where
  phase : Phase
  inFlight : Nat
  accepted : Nat
  log : List String
deriving Repr

/-- Events the listener reacts to: an incoming connection attempt, the
completion of an in-flight connection, and the SIGTERM signal. -/
inductive Ev where
  | connOpen
  | connDone
  | sigterm
deriving DecidableEq, Repr

/-- Modelled from the spec: one step of the listener.  A connection attempt
is accepted only while listening.  SIGTERM while listening logs the shutdown
message and moves to `shuttingDown` (closing immediately, with the
"Process terminated" close-callback log, when nothing is in flight).  A
connection completion decrements the in-flight count and, if it empties
during shutdown, completes the close and logs "Process terminated". -/
def step (s : ServerSt) : Ev → ServerSt
  | .connOpen =>
    if s.phase = .listening then
      { s with inFlight := s.inFlight + 1, accepted := s.accepted + 1 }
    else s
  | .connDone =>
    if s.inFlight = 0 then s
    else
      let s1 := { s with inFlight := s.inFlight - 1 }
      if s1.phase = .shuttingDown ∧ s1.inFlight = 0 then
        { s1 with phase := .terminated, log := s1.log ++ ["Process terminated"] }
      else s1
  | .sigterm =>
    if s.phase = .listening then
      let s1 := { s with phase := Phase.shuttingDown,
                         log := s.log ++ ["SIGTERM received. Shutting down gracefully"] }
      if s1.inFlight = 0 then
        { s1 with phase := .terminated, log := s1.log ++ ["Process terminated"] }
      else s1
    else s

/-- Run the listener from a state through a sequence of events. -/
def runFrom (s : ServerSt) (evs : List Ev) : ServerSt := evs.foldl step s

/-- The state right after `app.listen` succeeds. -/
def initialServer : ServerSt :=
  { phase := .listening, inFlight := 0, accepted := 0, log := [] }

theorem isDigitCh_digitChar_mod10 (n : Nat) : isDigitCh (digitChar (n % 10)) = true := by
  have h : n % 10 < 10 := Nat.mod_lt _ (by norm_num)
  set m := n % 10 with hm
  interval_cases m <;> decide

theorem isISO8601_toISOString (t : Nat) : isISO8601 (toISOString t) = true := by
  simp only [isISO8601, toISOString, pad4, pad2, pad3, String.data]
  simp only [List.cons_append, List.nil_append, List.append_assoc]
  simp only [isISO8601Chars, isDigitCh_digitChar_mod10]
  decide

/-! ### Helper predicates and witness fixtures -/

/-- The limiter lets the request through: its hit count (previous hits in
the window plus this request) is within the cap. -/
def underQuota (store : Store) (req : Request) : Bool :=
  decide (prevHits store req + 1 ≤ maxRequests)

/-- The `express.json` stage passes the request: not a JSON body, or a valid
JSON body within the size limit. -/
def jsonBodyOk (req : Request) : Bool :=
  !req.contentTypeJson || (decide (req.bodyLength ≤ bodyLimitBytes) && req.bodyValidJson)

/-- The `express.urlencoded` stage passes the request. -/
def urlencodedOk (req : Request) : Bool :=
  !(req.contentTypeUrlencoded && decide (req.bodyLength > bodyLimitBytes))

/-- A baseline request used by the concrete witnesses. -/
def baseReq : Request :=
  { method := "GET", path := "/health", origin := none,
    contentTypeJson := false, contentTypeUrlencoded := false, bodyLength := 0,
    bodyValidJson := true, cookieHeader := none, ip := "127.0.0.1",
    time := 1760227200000 }

/-- A fresh pipeline context for a request (what `processRequest` builds). -/
def ctxOf (req : Request) : Ctx :=
  { req := req, resHeaders := [], store := [], log := [],
    bodyParsed := false, cookiesParsed := false }

/-- The log line the logging middleware emits for a request. -/
def logLine (req : Request) : String :=
  req.method ++ " " ++ req.path ++ " - " ++ toISOString req.time

/-- The full middleware order, ending in the routing layer. -/
def fullOrder : List String :=
  ["limiter", "helmet", "cors", "json", "cookie", "urlencoded", "logger", "routing"]

/-- The context a request reaches the routing layer with, when every
middleware stage passes it through. -/
def fullCtx (store : Store) (req : Request) : Ctx :=
  { req := req,
    resHeaders := rlHeadersFor store req ++ helmetHeaders ++ corsAllowHeadersFor req.origin,
    store := Store.record store req.ip req.time,
    log := [logLine req],
    bodyParsed := req.contentTypeJson,
    cookiesParsed := true }

/-! ### One lemma per pipeline path -/

theorem run_over_quota (store : Store) (req : Request)
    (h : prevHits store req + 1 > maxRequests) :
    processRequest store req =
      { trace := ["limiter"],
        outcome := .response
          { status := 429, headers := rlHeadersFor store req,
            body := some (.str "Too many requests, please try again later.") },
        store := Store.record store req.ip req.time, log := [] } := by
  simp [processRequest, pipeline, runChain, limiterMw, h]

theorem run_cors_reject (store : Store) (req : Request)
    (hq : prevHits store req + 1 ≤ maxRequests)
    (ho : corsOriginAllowed req.origin = false) :
    processRequest store req =
      { trace := ["limiter", "helmet", "cors"],
        outcome := .pipelineError "Not allowed by CORS",
        store := Store.record store req.ip req.time, log := [] } := by
  have h1 : ¬ (prevHits store req + 1 > maxRequests) := by omega
  simp [processRequest, pipeline, runChain, limiterMw, helmetMw, corsMw, h1, ho]

theorem run_preflight (store : Store) (req : Request)
    (hq : prevHits store req + 1 ≤ maxRequests)
    (ho : corsOriginAllowed req.origin = true)
    (hm : req.method = "OPTIONS") :
    processRequest store req =
      { trace := ["limiter", "helmet", "cors"],
        outcome := .response
          { status := optionsSuccessStatus,
            headers := rlHeadersFor store req ++ helmetHeaders ++
              corsAllowHeadersFor req.origin ++ corsPreflightHeaders,
            body := none },
        store := Store.record store req.ip req.time, log := [] } := by
  have h1 : ¬ (prevHits store req + 1 > maxRequests) := by omega
  simp [processRequest, pipeline, runChain, limiterMw, helmetMw, corsMw, h1, ho, hm]

theorem run_json_too_large (store : Store) (req : Request)
    (hq : prevHits store req + 1 ≤ maxRequests)
    (ho : corsOriginAllowed req.origin = true)
    (hopt : req.method ≠ "OPTIONS")
    (hct : req.contentTypeJson = true)
    (hbig : req.bodyLength > bodyLimitBytes) :
    processRequest store req =
      { trace := ["limiter", "helmet", "cors", "json"],
        outcome := .pipelineError "request entity too large",
        store := Store.record store req.ip req.time, log := [] } := by
  have h1 : ¬ (prevHits store req + 1 > maxRequests) := by omega
  have h2 : (req.method == "OPTIONS") = false := by simpa using hopt
  simp [processRequest, pipeline, runChain, limiterMw, helmetMw, corsMw,
    jsonBodyMw, h1, ho, h2, hopt, hct, hbig]

theorem run_json_invalid (store : Store) (req : Request)
    (hq : prevHits store req + 1 ≤ maxRequests)
    (ho : corsOriginAllowed req.origin = true)
    (hopt : req.method ≠ "OPTIONS")
    (hct : req.contentTypeJson = true)
    (hsz : req.bodyLength ≤ bodyLimitBytes)
    (hval : req.bodyValidJson = false) :
    processRequest store req =
      { trace := ["limiter", "helmet", "cors", "json"],
        outcome := .pipelineError "invalid JSON body",
        store := Store.record store req.ip req.time, log := [] } := by
  have h1 : ¬ (prevHits store req + 1 > maxRequests) := by omega
  have h2 : (req.method == "OPTIONS") = false := by simpa using hopt
  have h3 : ¬ (req.bodyLength > bodyLimitBytes) := by omega
  simp [processRequest, pipeline, runChain, limiterMw, helmetMw, corsMw,
    jsonBodyMw, h1, ho, h2, hopt, hct, h3, hval]

theorem run_urlencoded_too_large (store : Store) (req : Request)
    (hq : prevHits store req + 1 ≤ maxRequests)
    (ho : corsOriginAllowed req.origin = true)
    (hopt : req.method ≠ "OPTIONS")
    (hj : jsonBodyOk req = true)
    (hue : req.contentTypeUrlencoded = true)
    (hbig : req.bodyLength > bodyLimitBytes) :
    processRequest store req =
      { trace := ["limiter", "helmet", "cors", "json", "cookie", "urlencoded"],
        outcome := .pipelineError "request entity too large",
        store := Store.record store req.ip req.time, log := [] } := by
  have h1 : ¬ (prevHits store req + 1 > maxRequests) := by omega
  have h2 : (req.method == "OPTIONS") = false := by simpa using hopt
  have h3 : ¬ (req.bodyLength ≤ bodyLimitBytes) := by omega
  have hct : req.contentTypeJson = false := by
    simp [jsonBodyOk, h3] at hj
    exact hj
  simp [processRequest, pipeline, runChain, limiterMw, helmetMw, corsMw,
    jsonBodyMw, cookieMw, urlencodedMw, h1, ho, h2, hopt, hct, hue, hbig]

theorem run_full (store : Store) (req : Request)
    (hq : prevHits store req + 1 ≤ maxRequests)
    (ho : corsOriginAllowed req.origin = true)
    (hopt : req.method ≠ "OPTIONS")
    (hj : jsonBodyOk req = true)
    (hu : urlencodedOk req = true) :
    processRequest store req =
      { trace := fullOrder,
        outcome := route (fullCtx store req),
        store := Store.record store req.ip req.time,
        log := [logLine req] } := by
  have h1 : ¬ (prevHits store req + 1 > maxRequests) := by omega
  have h2 : (req.method == "OPTIONS") = false := by simpa using hopt
  have h4 : ¬ (req.contentTypeUrlencoded = true ∧ req.bodyLength > bodyLimitBytes) := by
    simp [urlencodedOk] at hu
    rintro ⟨hc1, hc2⟩
    rcases hu with h | h
    · rw [h] at hc1
      cases hc1
    · omega
  cases hct : req.contentTypeJson with
  | true =>
    simp [jsonBodyOk, hct] at hj
    have h5 : ¬ (req.bodyLength > bodyLimitBytes) := by omega
    simp [processRequest, pipeline, runChain, limiterMw, helmetMw, corsMw,
      jsonBodyMw, cookieMw, urlencodedMw, loggerMw, h1, ho, h2, hopt, hct, h5,
      hj.2, h4, fullCtx, fullOrder, logLine]
  | false =>
    simp [processRequest, pipeline, runChain, limiterMw, helmetMw, corsMw,
      jsonBodyMw, cookieMw, urlencodedMw, loggerMw, h1, ho, h2, hopt, hct, h4,
      fullCtx, fullOrder, logLine]

/-- Every request falls into exactly one of the seven pipeline paths:
rejected by the limiter, rejected by the CORS gate, answered as a preflight,
rejected by the JSON parser (size or syntax), rejected by the URL-encoded
parser, or passed through to the routing layer. -/
theorem run_cases (store : Store) (req : Request) :
    processRequest store req =
      { trace := ["limiter"],
        outcome := .response
          { status := 429, headers := rlHeadersFor store req,
            body := some (.str "Too many requests, please try again later.") },
        store := Store.record store req.ip req.time, log := [] }
    ∨ processRequest store req =
      { trace := ["limiter", "helmet", "cors"],
        outcome := .pipelineError "Not allowed by CORS",
        store := Store.record store req.ip req.time, log := [] }
    ∨ processRequest store req =
      { trace := ["limiter", "helmet", "cors"],
        outcome := .response
          { status := optionsSuccessStatus,
            headers := rlHeadersFor store req ++ helmetHeaders ++
              corsAllowHeadersFor req.origin ++ corsPreflightHeaders,
            body := none },
        store := Store.record store req.ip req.time, log := [] }
    ∨ processRequest store req =
      { trace := ["limiter", "helmet", "cors", "json"],
        outcome := .pipelineError "request entity too large",
        store := Store.record store req.ip req.time, log := [] }
    ∨ processRequest store req =
      { trace := ["limiter", "helmet", "cors", "json"],
        outcome := .pipelineError "invalid JSON body",
        store := Store.record store req.ip req.time, log := [] }
    ∨ processRequest store req =
      { trace := ["limiter", "helmet", "cors", "json", "cookie", "urlencoded"],
        outcome := .pipelineError "request entity too large",
        store := Store.record store req.ip req.time, log := [] }
    ∨ processRequest store req =
      { trace := fullOrder,
        outcome := route (fullCtx store req),
        store := Store.record store req.ip req.time,
        log := [logLine req] } := by
  by_cases hq : prevHits store req + 1 ≤ maxRequests
  · by_cases ho : corsOriginAllowed req.origin = true
    · by_cases hm : req.method = "OPTIONS"
      · exact Or.inr (Or.inr (Or.inl (run_preflight store req hq ho hm)))
      · by_cases hct : req.contentTypeJson = true
        · by_cases hbig : req.bodyLength > bodyLimitBytes
          · exact Or.inr (Or.inr (Or.inr (Or.inl
              (run_json_too_large store req hq ho hm hct hbig))))
          · by_cases hval : req.bodyValidJson = true
            · have hj : jsonBodyOk req = true := by
                simp [jsonBodyOk, hct, hval]
                omega
              have hu : urlencodedOk req = true := by
                simp [urlencodedOk]
                right
                omega
              exact Or.inr (Or.inr (Or.inr (Or.inr (Or.inr (Or.inr
                (run_full store req hq ho hm hj hu))))))
            · have hval2 : req.bodyValidJson = false := by
                simpa using hval
              exact Or.inr (Or.inr (Or.inr (Or.inr (Or.inl
                (run_json_invalid store req hq ho hm hct (by omega) hval2)))))
        · have hct2 : req.contentTypeJson = false := by simpa using hct
          have hj : jsonBodyOk req = true := by simp [jsonBodyOk, hct2]
          by_cases hue : req.contentTypeUrlencoded = true ∧ req.bodyLength > bodyLimitBytes
          · exact Or.inr (Or.inr (Or.inr (Or.inr (Or.inr (Or.inl
              (run_urlencoded_too_large store req hq ho hm hj hue.1 hue.2))))))
          · have hu : urlencodedOk req = true := by
              simp [urlencodedOk]
              by_cases h1 : req.contentTypeUrlencoded = true
              · right
                have h2 : ¬ req.bodyLength > bodyLimitBytes := fun h2 => hue ⟨h1, h2⟩
                omega
              · left
                simpa using h1
            exact Or.inr (Or.inr (Or.inr (Or.inr (Or.inr (Or.inr
              (run_full store req hq ho hm hj hu))))))
    · have ho2 : corsOriginAllowed req.origin = false := by simpa using ho
      exact Or.inr (Or.inl (run_cors_reject store req hq ho2))
  · exact Or.inl (run_over_quota store req (by omega))

/-- Any response produced by the routing layer carries exactly the headers
accumulated by the middleware, and is either the health 200 or the 404. -/
theorem route_response_shape (c : Ctx) (r : Response) (hr : route c = .response r) :
    r.headers = c.resHeaders ∧ (r.status = 200 ∨ r.status = 404) := by
  unfold route at hr
  split at hr
  · cases hr
  · split at hr
    · cases hr
    · split at hr
      · cases hr
        exact ⟨rfl, Or.inl rfl⟩
      · cases hr
        exact ⟨rfl, Or.inr rfl⟩

/-- Recording a hit prepends it to the hit list of that client. -/
theorem hits_record (s : Store) (ip : String) (t : Nat) :
    Store.hits (Store.record s ip t) ip = t :: Store.hits s ip := by
  induction s with
  | nil => simp [Store.record, Store.hits]
  | cons e rest ih =>
    by_cases h : (e.1 == ip) = true
    · simp [Store.record, Store.hits, h]
    · have h2 : (e.1 == ip) = false := by simpa using h
      simp [Store.record, Store.hits, h2, List.find?]
      simp [Store.hits] at ih
      exact ih

/-- Whatever path a request takes, its hit is recorded in the store. -/
theorem store_after (store : Store) (req : Request) :
    (processRequest store req).store = Store.record store req.ip req.time := by
  rcases run_cases store req with h | h | h | h | h | h | h <;> rw [h]

/-- No header in the list has a key starting with `X-RateLimit`. -/
def noLegacyHeaders (hs : List (String × String)) : Bool :=
  hs.all (fun kv => !(List.isPrefixOf "X-RateLimit".data kv.1.data))

theorem noLegacy_append (a b : List (String × String)) :
    noLegacyHeaders (a ++ b) = (noLegacyHeaders a && noLegacyHeaders b) := by
  simp [noLegacyHeaders]

theorem noLegacy_rl (store : Store) (req : Request) :
    noLegacyHeaders (rlHeadersFor store req) = true := by
  simp [noLegacyHeaders, rlHeadersFor]
  decide

theorem noLegacy_helmet : noLegacyHeaders helmetHeaders = true := by decide

theorem noLegacy_cors (o : Option String) :
    noLegacyHeaders (corsAllowHeadersFor o) = true := by
  cases o <;> simp [noLegacyHeaders, corsAllowHeadersFor] <;> decide

theorem noLegacy_preflight : noLegacyHeaders corsPreflightHeaders = true := by decide

/-- C1: the `/health` handler responds to every GET request with status 200
and the JSON body `{ status: "healthy", timestamp: <ISO-8601 now> }`, the
timestamp being the ISO-8601 rendering of the current time; the handler is a
total function of the context (it consults no database state) and never
fails. -/
theorem health_get_200 (c : Ctx) (hm : c.req.method = "GET")
    (hp : c.req.path = "/health") :
    route c = Outcome.response
      { status := 200, headers := c.resHeaders,
        body := some (Json.obj [("status", Json.str "healthy"),
                                ("timestamp", Json.str (toISOString c.req.time))]) }
    ∧ isISO8601 (toISOString c.req.time) = true := by
  refine ⟨?_, isISO8601_toISOString _⟩
  have h1 : mountMatches "/health" "/api/v1/email" = false := by decide
  have h2 : mountMatches "/health" "/api/v1/auth" = false := by decide
  simp [route, hp, hm, h1, h2]

theorem health_get_200_witness :
    route (ctxOf baseReq) = Outcome.response
      { status := 200, headers := [],
        body := some (Json.obj [("status", Json.str "healthy"),
                                ("timestamp", Json.str (toISOString 1760227200000))]) }
    ∧ isISO8601 (toISOString 1760227200000) = true :=
  health_get_200 (ctxOf baseReq) rfl rfl

/-- C9: `/health` is registered for GET only; a request to `/health` with
any other method falls through to the catch-all handler and gets status 404
with body `{ error: "Not Found", path: "/health" }`. -/
theorem health_non_get_404 (c : Ctx) (hp : c.req.path = "/health")
    (hm : c.req.method ≠ "GET") :
    route c = Outcome.response
      { status := 404, headers := c.resHeaders,
        body := some (Json.obj [("error", Json.str "Not Found"),
                                ("path", Json.str "/health")]) } := by
  have h1 : mountMatches "/health" "/api/v1/email" = false := by decide
  have h2 : mountMatches "/health" "/api/v1/auth" = false := by decide
  have h3 : (c.req.method == "GET") = false := by
    simpa using hm
  simp [route, hp, h1, h2, h3]

theorem health_non_get_404_witness :
    route (ctxOf { baseReq with method := "POST" }) = Outcome.response
      { status := 404, headers := [],
        body := some (Json.obj [("error", Json.str "Not Found"),
                                ("path", Json.str "/health")]) } :=
  health_non_get_404 (ctxOf { baseReq with method := "POST" }) rfl (by decide)

/-- A request from an origin outside the allow-list. -/
def evilReq : Request :=
  { baseReq with origin := some "http://example.com",
                 path := "/api/v1/auth/login", method := "POST" }

/-- A store in which the client of `baseReq` already has 100 in-window hits. -/
def fullStore : Store := [("127.0.0.1", List.replicate 100 1760227200000)]

/-- C2: the CORS gate allows exactly the requests whose `Origin` is absent or
on the fixed allow-list — those continue down the pipeline with CORS-allow
headers attached — and rejects every other origin with the pipeline error
`Not allowed by CORS` before any route handler runs. -/
theorem cors_gate_allow_list (c : Ctx) (store : Store) :
    (corsOriginAllowed c.req.origin = true ↔
      (c.req.origin = none ∨ c.req.origin = some "http://localhost:5173" ∨
       c.req.origin = some "https://salesfrontend-eight.vercel.app"))
    ∧ (corsOriginAllowed c.req.origin = true → c.req.method ≠ "OPTIONS" →
        corsMw.run c =
          .next { c with resHeaders := c.resHeaders ++ corsAllowHeadersFor c.req.origin }
        ∧ ("Access-Control-Allow-Credentials", "true") ∈ corsAllowHeadersFor c.req.origin)
    ∧ (corsOriginAllowed c.req.origin = false →
        corsMw.run c = .err c "Not allowed by CORS")
    ∧ (corsOriginAllowed c.req.origin = false → prevHits store c.req + 1 ≤ maxRequests →
        (processRequest store c.req).outcome = .pipelineError "Not allowed by CORS"
        ∧ "routing" ∉ (processRequest store c.req).trace) := by
  refine ⟨?_, ?_, ?_, ?_⟩
  · cases hor : c.req.origin with
    | none => simp [corsOriginAllowed]
    | some o =>
      by_cases h1 : o = "http://localhost:5173"
      · simp [corsOriginAllowed, allowedOrigins, h1]
      · by_cases h2 : o = "https://salesfrontend-eight.vercel.app"
        · simp [corsOriginAllowed, allowedOrigins, h1, h2]
        · simp [corsOriginAllowed, allowedOrigins, h1, h2]
  · intro ho hm
    have hm2 : (c.req.method == "OPTIONS") = false := by simpa using hm
    constructor
    · simp [corsMw, ho, hm2, hm]
    · cases c.req.origin <;> simp [corsAllowHeadersFor]
  · intro ho
    simp [corsMw, ho]
  · intro ho hq
    rw [run_cors_reject store c.req hq ho]
    refine ⟨rfl, ?_⟩
    show "routing" ∉ (["limiter", "helmet", "cors"] : List String)
    decide

theorem cors_gate_allow_list_witness :
    (processRequest [] evilReq).outcome = .pipelineError "Not allowed by CORS"
    ∧ "routing" ∉ (processRequest [] evilReq).trace :=
  (cors_gate_allow_list (ctxOf evilReq) []).2.2.2 (by decide) (by decide)

/-- C3: a client whose in-window hit count has reached the cap has its next
request rejected by the limiter alone (status 429, the rest of the pipeline
short-circuited); every response carries the standard `RateLimit-*` headers
and no response ever carries a legacy `X-RateLimit-*` header. -/
theorem rate_limit_contract (store : Store) (req : Request) :
    (maxRequests ≤ prevHits store req →
       (processRequest store req).trace = ["limiter"] ∧
       (processRequest store req).outcome = .response
         { status := 429, headers := rlHeadersFor store req,
           body := some (.str "Too many requests, please try again later.") })
    ∧ (∀ r, (processRequest store req).outcome = .response r →
         ("RateLimit-Limit", toString maxRequests) ∈ r.headers ∧
         noLegacyHeaders r.headers = true) := by
  constructor
  · intro h
    rw [run_over_quota store req (by omega)]
    exact ⟨rfl, rfl⟩
  · intro r hr
    rcases run_cases store req with h | h | h | h | h | h | h
    · rw [h] at hr
      simp at hr
      rw [← hr]
      refine ⟨by simp [rlHeadersFor], noLegacy_rl store req⟩
    · rw [h] at hr
      simp at hr
    · rw [h] at hr
      simp at hr
      rw [← hr]
      constructor
      · simp [rlHeadersFor]
      · simp [noLegacy_append, noLegacy_rl, noLegacy_helmet, noLegacy_cors,
          noLegacy_preflight]
    · rw [h] at hr
      simp at hr
    · rw [h] at hr
      simp at hr
    · rw [h] at hr
      simp at hr
    · rw [h] at hr
      simp only at hr
      obtain ⟨hh, _⟩ := route_response_shape _ _ hr
      rw [hh]
      constructor
      · simp [fullCtx, rlHeadersFor]
      · simp [fullCtx, noLegacy_append, noLegacy_rl, noLegacy_helmet,
          noLegacy_cors]

theorem rate_limit_contract_witness :
    (processRequest fullStore baseReq).trace = ["limiter"] ∧
    (processRequest fullStore baseReq).outcome = .response
      { status := 429, headers := rlHeadersFor fullStore baseReq,
        body := some (.str "Too many requests, please try again later.") } :=
  (rate_limit_contract fullStore baseReq).1 (by decide)

/-- C4: a request that passes every middleware stage and matches neither
mounted route group nor `GET /health` is answered by the catch-all handler:
status 404 with body `{ error: "Not Found", path: <request path> }`, the
path echoed exactly. -/
theorem unmatched_route_404 (store : Store) (req : Request)
    (hq : prevHits store req + 1 ≤ maxRequests)
    (ho : corsOriginAllowed req.origin = true)
    (hopt : req.method ≠ "OPTIONS")
    (hj : jsonBodyOk req = true)
    (hu : urlencodedOk req = true)
    (hm1 : mountMatches req.path "/api/v1/email" = false)
    (hm2 : mountMatches req.path "/api/v1/auth" = false)
    (hnh : ¬ (req.method = "GET" ∧ req.path = "/health")) :
    (processRequest store req).outcome = .response
      { status := 404,
        headers := rlHeadersFor store req ++ helmetHeaders ++
          corsAllowHeadersFor req.origin,
        body := some (.obj [("error", .str "Not Found"),
                            ("path", .str req.path)]) } := by
  rw [run_full store req hq ho hopt hj hu]
  simp [route, fullCtx, hm1, hm2, hnh]

theorem unmatched_route_404_witness :
    (processRequest [] { baseReq with path := "/unknown/path" }).outcome = .response
      { status := 404,
        headers := rlHeadersFor [] { baseReq with path := "/unknown/path" } ++
          helmetHeaders ++ corsAllowHeadersFor none,
        body := some (.obj [("error", .str "Not Found"),
                            ("path", .str "/unknown/path")]) } :=
  unmatched_route_404 [] { baseReq with path := "/unknown/path" }
    (by decide) (by decide) (by decide) (by decide) (by decide)
    (by decide) (by decide) (by decide)

/-- C5: the JSON body parser rejects any `application/json` body over 10 KB
(10240 bytes) with a pipeline error that stops the pipeline at the parser;
a valid JSON body of at most 10 KB is parsed (the routing layer sees
`bodyParsed = true`) and the request continues through the whole pipeline. -/
theorem json_body_limit (store : Store) (req : Request)
    (hq : prevHits store req + 1 ≤ maxRequests)
    (ho : corsOriginAllowed req.origin = true)
    (hopt : req.method ≠ "OPTIONS")
    (hct : req.contentTypeJson = true) :
    (req.bodyLength > bodyLimitBytes →
       (processRequest store req).outcome = .pipelineError "request entity too large"
       ∧ (processRequest store req).trace = ["limiter", "helmet", "cors", "json"])
    ∧ (req.bodyLength ≤ bodyLimitBytes → req.bodyValidJson = true →
       req.contentTypeUrlencoded = false →
         (processRequest store req).trace = fullOrder
         ∧ (fullCtx store req).bodyParsed = true
         ∧ (processRequest store req).outcome = route (fullCtx store req)) := by
  constructor
  · intro hbig
    rw [run_json_too_large store req hq ho hopt hct hbig]
    exact ⟨rfl, rfl⟩
  · intro hsz hval hcu
    have hj : jsonBodyOk req = true := by
      simp [jsonBodyOk, hct, hval]
      omega
    have hu : urlencodedOk req = true := by simp [urlencodedOk, hcu]
    rw [run_full store req hq ho hopt hj hu]
    exact ⟨rfl, by simp [fullCtx, hct], rfl⟩

theorem json_body_limit_witness :
    (processRequest []
        { baseReq with method := "POST", path := "/x",
                       contentTypeJson := true, bodyLength := 10241 }).outcome
      = .pipelineError "request entity too large"
    ∧ (processRequest []
        { baseReq with method := "POST", path := "/x",
                       contentTypeJson := true, bodyLength := 10241 }).trace
      = ["limiter", "helmet", "cors", "json"] :=
  (json_body_limit []
    { baseReq with method := "POST", path := "/x",
                   contentTypeJson := true, bodyLength := 10241 }
    (by decide) (by decide) (by decide) (by decide)).1 (by decide)

/-- C6: the stages a request traverses are always an initial segment of the
fixed order limiter, helmet, CORS gate, JSON parser, cookie parser,
URL-encoded parser, logger, routing — and a request that reaches routing has
traversed all of them, in exactly that order. -/
theorem pipeline_order (store : Store) (req : Request) :
    List.isPrefixOf (processRequest store req).trace fullOrder = true
    ∧ ("routing" ∈ (processRequest store req).trace →
        (processRequest store req).trace = fullOrder) := by
  rcases run_cases store req with h | h | h | h | h | h | h <;> rw [h] <;>
    exact ⟨by rfl, fun hmem => by
      first | rfl | exact absurd hmem (of_decide_eq_false rfl)⟩

/-- C7: an `OPTIONS` request to any path whose origin passes the allow-list
rule is short-circuited by the CORS gate with the explicit success status
200 (`optionsSuccessStatus`). -/
theorem preflight_success (store : Store) (req : Request)
    (hq : prevHits store req + 1 ≤ maxRequests)
    (ho : corsOriginAllowed req.origin = true)
    (hm : req.method = "OPTIONS") :
    (processRequest store req).outcome = .response
      { status := 200,
        headers := rlHeadersFor store req ++ helmetHeaders ++
          corsAllowHeadersFor req.origin ++ corsPreflightHeaders,
        body := none } := by
  rw [run_preflight store req hq ho hm]
  rfl

theorem preflight_success_witness :
    (processRequest []
        { baseReq with method := "OPTIONS",
                       origin := some "http://localhost:5173" }).outcome
      = .response
        { status := 200,
          headers :=
            rlHeadersFor [] { baseReq with method := "OPTIONS",
                                           origin := some "http://localhost:5173" }
            ++ helmetHeaders ++ corsAllowHeadersFor (some "http://localhost:5173")
            ++ corsPreflightHeaders,
          body := none } :=
  preflight_success []
    { baseReq with method := "OPTIONS", origin := some "http://localhost:5173" }
    (by decide) (by decide) (by decide)

/-- C10: the limiter runs before the CORS gate: every request — a
disallowed-origin one included — has its hit recorded against the client
quota; a client over the quota gets the 429 rejection of the limiter (never the
CORS error), and a disallowed-origin client under the quota gets the CORS
error while still consuming quota. -/
theorem limiter_before_cors (store : Store) (req : Request) :
    ((processRequest store req).store = Store.record store req.ip req.time
     ∧ Store.hits (processRequest store req).store req.ip
         = req.time :: Store.hits store req.ip)
    ∧ (maxRequests < prevHits store req + 1 →
        (processRequest store req).trace = ["limiter"] ∧
        (processRequest store req).outcome = .response
          { status := 429, headers := rlHeadersFor store req,
            body := some (.str "Too many requests, please try again later.") })
    ∧ (corsOriginAllowed req.origin = false → prevHits store req + 1 ≤ maxRequests →
        (processRequest store req).outcome = .pipelineError "Not allowed by CORS") := by
  refine ⟨⟨store_after store req, ?_⟩, ?_, ?_⟩
  · rw [store_after store req]
    exact hits_record store req.ip req.time
  · intro h
    rw [run_over_quota store req h]
    exact ⟨rfl, rfl⟩
  · intro ho hq
    rw [run_cors_reject store req hq ho]

theorem limiter_before_cors_witness :
    ((processRequest fullStore evilReq).trace = ["limiter"] ∧
     (processRequest fullStore evilReq).outcome = .response
       { status := 429, headers := rlHeadersFor fullStore evilReq,
         body := some (.str "Too many requests, please try again later.") })
    ∧ (processRequest [] evilReq).outcome = .pipelineError "Not allowed by CORS"
    ∧ Store.hits (processRequest [] evilReq).store evilReq.ip
        = evilReq.time :: Store.hits [] evilReq.ip :=
  ⟨(limiter_before_cors fullStore evilReq).2.1 (by decide),
   (limiter_before_cors [] evilReq).2.2 (by decide) (by decide),
   (limiter_before_cors [] evilReq).1.2⟩

/-! ### Shutdown lemmas -/

theorem step_not_listening (s : ServerSt) (e : Ev) (h : s.phase ≠ .listening) :
    (step s e).phase ≠ .listening ∧ (step s e).accepted = s.accepted := by
  cases e with
  | connOpen => simp [step, h]
  | connDone =>
    simp only [step]
    split
    · exact ⟨h, rfl⟩
    · split
      · exact ⟨by simp, rfl⟩
      · exact ⟨h, rfl⟩
  | sigterm => simp [step, h]

theorem runFrom_not_listening (evs : List Ev) :
    ∀ s : ServerSt, s.phase ≠ .listening →
      (runFrom s evs).phase ≠ .listening ∧ (runFrom s evs).accepted = s.accepted := by
  induction evs with
  | nil =>
    intro s h
    exact ⟨h, rfl⟩
  | cons e evs ih =>
    intro s h
    have h1 := step_not_listening s e h
    have h2 := ih (step s e) h1.1
    simp only [runFrom, List.foldl_cons] at h2 ⊢
    exact ⟨h2.1, h2.2.trans h1.2⟩

theorem drain (n : Nat) :
    ∀ s : ServerSt, s.phase = .shuttingDown → s.inFlight = n + 1 →
      (runFrom s (List.replicate (n + 1) Ev.connDone)).phase = .terminated ∧
      "Process terminated" ∈ (runFrom s (List.replicate (n + 1) Ev.connDone)).log := by
  induction n with
  | zero =>
    intro s hp hf
    simp [runFrom, List.replicate, step, hf, hp]
  | succ k ih =>
    intro s hp hf
    have hstep : step s Ev.connDone = { s with inFlight := k + 1 } := by
      simp [step, hf, hp]
    have := ih { s with inFlight := k + 1 } (by simpa using hp) (by simp)
    simp only [runFrom, List.replicate, List.foldl_cons] at this ⊢
    rw [hstep]
    exact this

/-- C8: once SIGTERM arrives in the listening state, the shutdown message is
logged, the server is never in the listening state again, no later event
raises the accepted-connection count, and once the in-flight requests have
all completed the server is terminated with the completion message
("Process terminated") logged — the process is then free to exit. -/
theorem graceful_shutdown (s : ServerSt) (h : s.phase = .listening) :
    "SIGTERM received. Shutting down gracefully" ∈ (step s Ev.sigterm).log
    ∧ (∀ evs, (runFrom (step s Ev.sigterm) evs).phase ≠ Phase.listening)
    ∧ (∀ evs, (runFrom (step s Ev.sigterm) evs).accepted = s.accepted)
    ∧ (s.inFlight = 0 →
        (step s Ev.sigterm).phase = Phase.terminated ∧
        "Process terminated" ∈ (step s Ev.sigterm).log)
    ∧ (0 < s.inFlight →
        (runFrom (step s Ev.sigterm) (List.replicate s.inFlight Ev.connDone)).phase
          = Phase.terminated ∧
        "Process terminated" ∈
          (runFrom (step s Ev.sigterm) (List.replicate s.inFlight Ev.connDone)).log) := by
  have hlog : "SIGTERM received. Shutting down gracefully" ∈ (step s Ev.sigterm).log := by
    simp only [step, h, if_pos]
    split <;> simp
  have hnl : (step s Ev.sigterm).phase ≠ Phase.listening := by
    simp only [step, h, if_pos]
    split <;> simp
  have hacc : (step s Ev.sigterm).accepted = s.accepted := by
    simp only [step, h, if_pos]
    split <;> rfl
  refine ⟨hlog, ?_, ?_, ?_, ?_⟩
  · intro evs
    exact (runFrom_not_listening evs _ hnl).1
  · intro evs
    exact ((runFrom_not_listening evs _ hnl).2).trans hacc
  · intro hf
    simp [step, h, hf]
  · intro hf
    have hph : (step s Ev.sigterm).phase = Phase.shuttingDown := by
      simp only [step, h, if_pos]
      rw [if_neg]
      simp only [Ne, ← Nat.pos_iff_ne_zero] at *
      omega
    have hfl : (step s Ev.sigterm).inFlight = s.inFlight := by
      simp only [step, h, if_pos]
      split <;> rfl
    obtain ⟨n, hn⟩ : ∃ n, s.inFlight = n + 1 := ⟨s.inFlight - 1, by omega⟩
    rw [hn]
    exact drain n (step s Ev.sigterm) hph (by rw [hfl, hn])

/-- A listening server with one in-flight request and three accepted so far. -/
def srv1 : ServerSt := { phase := .listening, inFlight := 1, accepted := 3, log := [] }

theorem graceful_shutdown_witness :
    "SIGTERM received. Shutting down gracefully" ∈ (step srv1 Ev.sigterm).log
    ∧ (runFrom (step srv1 Ev.sigterm) [Ev.connOpen, Ev.connDone]).phase ≠ Phase.listening
    ∧ (runFrom (step srv1 Ev.sigterm) [Ev.connOpen, Ev.connDone]).accepted = srv1.accepted
    ∧ ((runFrom (step srv1 Ev.sigterm) (List.replicate srv1.inFlight Ev.connDone)).phase
         = Phase.terminated ∧
       "Process terminated" ∈
         (runFrom (step srv1 Ev.sigterm) (List.replicate srv1.inFlight Ev.connDone)).log) :=
  ⟨(graceful_shutdown srv1 rfl).1,
   (graceful_shutdown srv1 rfl).2.1 [Ev.connOpen, Ev.connDone],
   (graceful_shutdown srv1 rfl).2.2.1 [Ev.connOpen, Ev.connDone],
   (graceful_shutdown srv1 rfl).2.2.2.2 (by decide)⟩

end SalesBackend
